import Mathlib

/-!
Verification of the Sevatra emergency-dispatch core against its
specification.  The Python source under
`master-backend/app/ambi/` is shallowly embedded: Python floats become
rationals, dicts become structures, Firestore collections become lists,
and network or clock effects become explicit parameters.  The
transcendental haversine distance itself is abstracted as a rational
valued function parameter `dist`; the source guarantees only that it is
a great-circle distance on Earth, hence bounded by pi times 6371 km and
in particular strictly below the 999999 sentinel used for ambulances
without a base location.
-/

namespace Sevatra

/-- Timestamp strings produced by `now_iso` are opaque to the logic. -/
abbrev Timestamp := String

/-- Embedding of the `current_assignment` sub-document written by
`AmbulanceAssignmentService.find_and_assign`. -/
structure AssignmentRef where
  booking_id : Option String
  sos_id : Option String
  assigned_at : Timestamp
deriving DecidableEq, Repr

/-- Embedding of one document of the `ambulances` collection, restricted
to the fields the verified claims touch. -/
structure Ambulance where
  id : String
  status : String
  base_latitude : Option ℚ
  base_longitude : Option ℚ
  vehicle_number : String
  driver_name : String
  driver_phone : String
  current_assignment : Option AssignmentRef
  updated_at : Timestamp
deriving DecidableEq, Repr

/-- Candidate pull of `find_and_assign`: all pool documents whose
`status` field equals `available`. -/
def availableCandidates (pool : List Ambulance) : List Ambulance :=
  pool.filter (fun a => a.status == "available")

/-- True when both base coordinates of the ambulance are known. -/
def hasBase (a : Ambulance) : Bool :=
  a.base_latitude.isSome && a.base_longitude.isSome

/-- Sort key `_distance_km` computed by `find_and_assign`: the distance
from the caller to the base when both base coordinates are known, the
sentinel `999_999` otherwise. -/
def distanceKey (dist : ℚ → ℚ → ℚ → ℚ → ℚ) (la lo : ℚ) (a : Ambulance) : ℚ :=
  match a.base_latitude, a.base_longitude with
  | some bla, some blo => dist la lo bla blo
  | _, _ => 999999

/-- Boolean comparison used to sort candidates by their key. -/
def keyLE {α : Type} (key : α → ℚ) (x y : α) : Bool :=
  decide (key x ≤ key y)

/-- The stable sort `candidates.sort(key=lambda a: a["_distance_km"])`
of the source, embedded through `List.mergeSort` (stable, like the
Python sort). -/
def rankCandidates (dist : ℚ → ℚ → ℚ → ℚ → ℚ) (la lo : ℚ)
    (cs : List Ambulance) : List Ambulance :=
  cs.mergeSort (keyLE (distanceKey dist la lo))

/-- Selection phase of `find_and_assign`: pull the available candidates,
return `none` when there are none, otherwise sort by distance when a
caller location is given (FIFO otherwise) and take index 0. -/
def faa_select (dist : ℚ → ℚ → ℚ → ℚ → ℚ) (latitude longitude : Option ℚ)
    (pool : List Ambulance) : Option Ambulance :=
  let candidates := availableCandidates pool
  match latitude, longitude with
  | some la, some lo => (rankCandidates dist la lo candidates).head?
  | _, _ => candidates.head?

/-- Write phase of `find_and_assign`: the plain
`db.collection("ambulances").document(id).update({...})`, which sets the
chosen document to `on_trip` unconditionally - the source performs no
check that the document is still `available` at write time. -/
def faa_write (ambulance_id : String) (booking_id sos_id : Option String)
    (now : Timestamp) (pool : List Ambulance) : List Ambulance :=
  pool.map (fun a =>
    if a.id = ambulance_id then
      { a with
        status := "on_trip"
        current_assignment := some ⟨booking_id, sos_id, now⟩
        updated_at := now }
    else a)

/-- Embedded summary dict returned by `find_and_assign` to be stored in
the SOS or booking record (display-only fields that no claim touches are
omitted). -/
structure AssignedSnapshot where
  ambulance_id : String
  vehicle_number : String
  driver_name : String
  driver_phone : String
  base_latitude : Option ℚ
  base_longitude : Option ℚ
deriving DecidableEq, Repr

/-- Snapshot construction from the chosen pool document. -/
def mkSnapshot (chosen : Ambulance) : AssignedSnapshot :=
  { ambulance_id := chosen.id
    vehicle_number := chosen.vehicle_number
    driver_name := chosen.driver_name
    driver_phone := chosen.driver_phone
    base_latitude := chosen.base_latitude
    base_longitude := chosen.base_longitude }

/-- Sequential run of `find_and_assign`: select on the pool, then write
on that same pool (no concurrent interleaving). -/
def find_and_assign (dist : ℚ → ℚ → ℚ → ℚ → ℚ)
    (latitude longitude : Option ℚ) (booking_id sos_id : Option String)
    (now : Timestamp) (pool : List Ambulance) :
    Option AssignedSnapshot × List Ambulance :=
  match faa_select dist latitude longitude pool with
  | none => (none, pool)
  | some chosen =>
      (some (mkSnapshot chosen), faa_write chosen.id booking_id sos_id now pool)

/-! Generic facts about the head of a stable merge sort by a rational
key, used to characterise the selection phase. -/

theorem keyLE_trans {α : Type} (key : α → ℚ) :
    ∀ a b c, keyLE key a b → keyLE key b c → keyLE key a c := by
  intro a b c hab hbc
  simp only [keyLE, decide_eq_true_eq] at *
  exact le_trans hab hbc

theorem keyLE_total {α : Type} (key : α → ℚ) :
    ∀ a b, keyLE key a b || keyLE key b a := by
  intro a b
  simp only [keyLE, Bool.or_eq_true, decide_eq_true_eq]
  exact le_total (key a) (key b)

/-- The head of the sorted list attains the minimum key over the whole
list. -/
theorem head_mergeSort_min {α : Type} (key : α → ℚ) (l : List α) (h : α)
    (hh : (l.mergeSort (keyLE key)).head? = some h) :
    ∀ x ∈ l, key h ≤ key x := by
  intro x hx
  have hs := @List.sorted_mergeSort _ (keyLE key)
    (keyLE_trans key) (keyLE_total key) l
  have hx' : x ∈ l.mergeSort (keyLE key) := List.mem_mergeSort.mpr hx
  cases hms : l.mergeSort (keyLE key) with
  | nil => rw [hms] at hx'; cases hx'
  | cons a t =>
      rw [hms] at hh hx' hs
      simp only [List.head?_cons, Option.some.injEq] at hh
      subst hh
      rcases List.mem_cons.mp hx' with rfl | hxt
      · exact le_refl _
      · have := (List.pairwise_cons.mp hs).1 x hxt
        simpa [keyLE, decide_eq_true_eq] using this

/-- Stability: the head of the sorted list is the first element of the
input attaining the minimum key, i.e. every element before it in the
input has strictly larger key. -/
theorem head_mergeSort_first {α : Type} (key : α → ℚ) :
    ∀ (l : List α) (h : α),
      (l.mergeSort (keyLE key)).head? = some h →
      ∃ pre post, l = pre ++ h :: post ∧ ∀ e ∈ pre, key h < key e := by
  intro l
  induction l with
  | nil => intro h hh; simp [List.mergeSort_nil] at hh
  | cons a t ih =>
      intro h hh
      obtain ⟨l₁, l₂, heq, heq', hlt⟩ :=
        @List.mergeSort_cons _ (keyLE key)
          (keyLE_trans key) (keyLE_total key) a t
      cases hl₁ : l₁ with
      | nil =>
          subst hl₁
          rw [heq] at hh
          simp only [List.nil_append, List.head?_cons, Option.some.injEq] at hh
          subst hh
          exact ⟨[], t, rfl, by intro e he; cases he⟩
      | cons b t₁ =>
          subst hl₁
          rw [heq] at hh
          simp only [List.cons_append, List.head?_cons, Option.some.injEq] at hh
          have hht : (t.mergeSort (keyLE key)).head? = some b := by
            rw [heq']; simp
          obtain ⟨pre, post, hdec, hpre⟩ := ih b hht
          have hba : key b < key a := by
            have := hlt b (by simp)
            simp only [keyLE, Bool.not_eq_true', decide_eq_false_iff_not,
              not_le] at this
            exact this
          subst hh
          refine ⟨a :: pre, post, by simp [hdec], ?_⟩
          intro e he
          rcases List.mem_cons.mp he with rfl | hpe
          · exact hba
          · exact hpre e hpe

/-- Every list whose merge sort has a head contains that head. -/
theorem head_mergeSort_mem {α : Type} (key : α → ℚ) (l : List α) (h : α)
    (hh : (l.mergeSort (keyLE key)).head? = some h) : h ∈ l := by
  have : h ∈ l.mergeSort (keyLE key) := by
    cases hms : l.mergeSort (keyLE key) with
    | nil => rw [hms] at hh; cases hh
    | cons a t =>
        rw [hms] at hh
        simp only [List.head?_cons, Option.some.injEq] at hh
        subst hh; simp
  exact List.mem_mergeSort.mp this

/-! Embedding of `SosService` (`app/ambi/services/sos_service.py`).
The Firestore database becomes an explicit record of collections, the
clock and freshly generated document ids become parameters, and the
Twilio OTP collaborator becomes a pair of boolean/message parameters.
The booking-history side effect `_create_sos_booking` is not modelled:
no claim concerns the `bookings` collection. -/

/-- String values of the `SosStatus` enum (`app/ambi/models.py`). -/
def SosStatus.INITIATED : String := "initiated"

def SosStatus.COUNTDOWN : String := "countdown"

def SosStatus.OTP_SENT : String := "otp_sent"

def SosStatus.VERIFIED : String := "verified"

def SosStatus.DISPATCHED : String := "dispatched"

def SosStatus.CANCELLED : String := "cancelled"

def SosStatus.COMPLETED : String := "completed"

/-- Embedding of one document of the `sos_events` collection. -/
structure SosEvent where
  id : String
  status : String
  latitude : Option ℚ
  longitude : Option ℚ
  address : Option String
  user_id : Option String
  verified_phone : Option String
  cancel_reason : Option String
  assigned_ambulance : Option AssignedSnapshot
  created_at : Timestamp
  updated_at : Timestamp
deriving DecidableEq, Repr

/-- The slice of the Firestore database the SOS claims touch. -/
structure Db where
  sos_events : List SosEvent
  ambulances : List Ambulance
deriving DecidableEq, Repr

/-- Embedding of `fastapi.HTTPException`. -/
structure HTTPException where
  status_code : Nat
  detail : String
deriving DecidableEq, Repr

/-- Result dict of the Twilio OTP collaborator. -/
structure OtpResult where
  success : Bool
  message : String
deriving DecidableEq, Repr

/-- Lookup of `_get_sos_event` (first document with the given id). -/
def getSos (db : Db) (sos_id : String) : Option SosEvent :=
  db.sos_events.find? (fun s => s.id == sos_id)

/-- Firestore `document(sos_id).update(...)` on the `sos_events`
collection. -/
def updateSosList (l : List SosEvent) (sos_id : String)
    (f : SosEvent → SosEvent) : List SosEvent :=
  l.map (fun s => if s.id = sos_id then f s else s)

/-- Python truthiness of an optional string (`None` and the empty
string are falsy). -/
def pyTruthyStr : Option String → Bool
  | none => false
  | some s => !(s == "")

/-- Detail of the conflict rejection of `send_verification` (the source
wraps the state in single quote characters, omitted here). -/
def sendOtpConflictDetail (st : String) : String :=
  "Cannot send OTP for SOS in " ++ st ++ " status"

/-- Detail of the conflict rejection of `verify`. -/
def verifyConflictDetail (st : String) : String :=
  "Cannot verify SOS in " ++ st ++ " status"

/-- Detail of the conflict rejection of `cancel`. -/
def cancelConflictDetail (st : String) : String :=
  "Cannot cancel SOS in " ++ st ++ " status"

/-- The 404 raised by `_get_sos_event` on an unknown id. -/
def sosNotFound : HTTPException :=
  ⟨404, "SOS event not found"⟩

/-- Embedding of `SosService.send_verification`.  `otp_send` is the
outcome of `twilio_service.send_otp`. -/
def send_verification (otp_send : OtpResult) (sos_id : String)
    (now : Timestamp) (db : Db) : Except HTTPException OtpResult × Db :=
  match getSos db sos_id with
  | none => (.error sosNotFound, db)
  | some sos =>
      if sos.status ∈ [SosStatus.INITIATED, SosStatus.COUNTDOWN, SosStatus.OTP_SENT] then
        if otp_send.success then
          let events := updateSosList db.sos_events sos_id
            (fun s => { s with status := SosStatus.OTP_SENT, updated_at := now })
          (.ok otp_send, { db with sos_events := events })
        else (.ok otp_send, db)
      else (.error ⟨400, sendOtpConflictDetail sos.status⟩, db)

/-- Result dict returned by a successful `verify`. -/
structure VerifyResult where
  id : String
  status : String
  assigned_ambulance : Option AssignedSnapshot
deriving DecidableEq, Repr

/-- Embedding of `SosService.verify`.  `otp_verify` is the outcome of
`twilio_service.verify_otp`; on success the nearest available ambulance
is assigned through `find_and_assign` and the event is updated to
DISPATCHED with the verified phone. -/
def verify (dist : ℚ → ℚ → ℚ → ℚ → ℚ) (otp_verify : OtpResult)
    (sos_id phone : String) (now : Timestamp) (db : Db) :
    Except HTTPException VerifyResult × Db :=
  match getSos db sos_id with
  | none => (.error sosNotFound, db)
  | some sos =>
      if sos.status ∈ [SosStatus.OTP_SENT, SosStatus.INITIATED, SosStatus.COUNTDOWN] then
        if otp_verify.success then
          let (info, pool) := find_and_assign dist sos.latitude sos.longitude
            none (some sos_id) now db.ambulances
          let db1 : Db :=
            { sos_events := updateSosList db.sos_events sos_id (fun s =>
                let s1 := { s with status := SosStatus.DISPATCHED,
                                   verified_phone := some phone,
                                   updated_at := now }
                match info with
                | some i => { s1 with assigned_ambulance := some i }
                | none => s1)
              ambulances := pool }
          (.ok ⟨sos_id, SosStatus.DISPATCHED, info⟩, db1)
        else (.error ⟨400, otp_verify.message⟩, db)
      else (.error ⟨400, verifyConflictDetail sos.status⟩, db)

/-- Embedding of `SosService.activate`.  `newId` is the document id
Firestore generates for the new event. -/
def activate (dist : ℚ → ℚ → ℚ → ℚ → ℚ) (latitude longitude : Option ℚ)
    (address : Option String) (user_id : Option String)
    (now : Timestamp) (newId : String) (db : Db) : SosEvent × Db :=
  let initial_status :=
    if pyTruthyStr user_id then SosStatus.DISPATCHED else SosStatus.INITIATED
  let payload : SosEvent :=
    { id := newId, status := initial_status, latitude := latitude,
      longitude := longitude, address := address, user_id := user_id,
      verified_phone := none, cancel_reason := none,
      assigned_ambulance := none, created_at := now, updated_at := now }
  let db1 : Db := { db with sos_events := db.sos_events ++ [payload] }
  if pyTruthyStr user_id then
    let (info, pool) := find_and_assign dist latitude longitude
      none (some newId) now db1.ambulances
    let db2 : Db := { db1 with ambulances := pool }
    match info with
    | some i =>
        let events := updateSosList db2.sos_events newId
          (fun s => { s with assigned_ambulance := some i })
        ({ payload with assigned_ambulance := some i },
         { db2 with sos_events := events })
    | none => (payload, db2)
  else (payload, db1)

/-- Embedding of `AmbulanceAssignmentService.release`: a no-op on an
unknown id, otherwise the document is set back to `available` with its
assignment cleared. -/
def release (ambulance_id : String) (now : Timestamp)
    (pool : List Ambulance) : List Ambulance :=
  match pool.find? (fun a => a.id == ambulance_id) with
  | none => pool
  | some _ =>
      pool.map (fun a =>
        if a.id = ambulance_id then
          { a with status := "available", current_assignment := none,
                   updated_at := now }
        else a)

/-- First step of the non-terminal branch of `cancel`: release the
assigned ambulance when the snapshot and its `ambulance_id` are truthy. -/
def cancelReleaseStep (sos : SosEvent) (now : Timestamp) (db : Db) : Db :=
  match sos.assigned_ambulance with
  | some amb =>
      if amb.ambulance_id ≠ "" then
        { db with ambulances := release amb.ambulance_id now db.ambulances }
      else db
  | none => db

/-- Second step of the non-terminal branch of `cancel`: write CANCELLED
and the cancel reason on the event document. -/
def cancelMarkStep (sos_id : String) (reason : Option String)
    (now : Timestamp) (db : Db) : Db :=
  { db with sos_events := updateSosList db.sos_events sos_id (fun s =>
      { s with status := SosStatus.CANCELLED, cancel_reason := reason,
               updated_at := now }) }

/-- Embedding of `SosService.cancel`. -/
def cancel (sos_id : String) (reason : Option String) (now : Timestamp)
    (db : Db) : Except HTTPException SosEvent × Db :=
  match getSos db sos_id with
  | none => (.error sosNotFound, db)
  | some sos =>
      if sos.status ∈ [SosStatus.COMPLETED, SosStatus.CANCELLED] then
        (.error ⟨400, cancelConflictDetail sos.status⟩, db)
      else
        let db1 := cancelReleaseStep sos now db
        let db2 := cancelMarkStep sos_id reason now db1
        match getSos db2 sos_id with
        | some updated => (.ok updated, db2)
        | none => (.error sosNotFound, db2)

/-- Database states visited by a successful non-terminal `cancel`, in
execution order: initial, after the release write, after the CANCELLED
write. -/
def cancelTrace (sos_id : String) (reason : Option String)
    (now : Timestamp) (db : Db) : List Db :=
  match getSos db sos_id with
  | none => [db]
  | some sos =>
      if sos.status ∈ [SosStatus.COMPLETED, SosStatus.CANCELLED] then [db]
      else
        let db1 := cancelReleaseStep sos now db
        [db, db1, cancelMarkStep sos_id reason now db1]

/-- Status of the first `sos_events` document with the given id. -/
def sosStatusOf (db : Db) (sos_id : String) : Option String :=
  (getSos db sos_id).map (fun s => s.status)

/-- Status of the first pool document with the given id. -/
def ambStatusOf (db : Db) (ambulance_id : String) : Option String :=
  (db.ambulances.find? (fun a => a.id == ambulance_id)).map (fun a => a.status)

/-! Embedding of the live tracking hub
(`app/ambi/routers/tracking.py`).  Websocket channels become natural
numbers, the wall clock becomes a parameter `now`, and the outcome of
`ws.send_json` becomes a predicate `sendOk` on channels; the deliveries
actually performed during a broadcast pass are returned as an explicit
trace. -/

/-- Embedding of `TrackingSession` (listener channels are numbers). -/
structure TrackingSession where
  booking_id : String
  latitude : ℚ
  longitude : ℚ
  heading : ℚ
  speed : ℚ
  eta_minutes : ℚ
  status : String
  driver_name : String
  driver_phone : String
  vehicle_number : String
  vehicle_type : String
  updated_at : ℚ
  listeners : List Nat
deriving DecidableEq, Repr

/-- The defaults of `TrackingSession.__init__`. -/
def TrackingSession.init (booking_id : String) (now : ℚ) : TrackingSession :=
  { booking_id := booking_id, latitude := 0, longitude := 0, heading := 0,
    speed := 0, eta_minutes := 8, status := "dispatched", driver_name := "",
    driver_phone := "", vehicle_number := "", vehicle_type := "ALS",
    updated_at := now, listeners := [] }

/-- Embedding of `TrackingSession.snapshot` (the broadcast dict). -/
structure SessionSnapshot where
  booking_id : String
  latitude : ℚ
  longitude : ℚ
  heading : ℚ
  speed : ℚ
  eta_minutes : ℚ
  status : String
  driver_name : String
  driver_phone : String
  vehicle_number : String
  vehicle_type : String
  updated_at : ℚ
deriving DecidableEq, Repr

/-- Snapshot of a session. -/
def TrackingSession.snapshot (s : TrackingSession) : SessionSnapshot :=
  { booking_id := s.booking_id, latitude := s.latitude,
    longitude := s.longitude, heading := s.heading, speed := s.speed,
    eta_minutes := s.eta_minutes, status := s.status,
    driver_name := s.driver_name, driver_phone := s.driver_phone,
    vehicle_number := s.vehicle_number, vehicle_type := s.vehicle_type,
    updated_at := s.updated_at }

/-- The process-wide `_sessions` dict, as an association list. -/
abbrev Hub := List (String × TrackingSession)

/-- Session stored for a trip id, if any. -/
def hubLookup (hub : Hub) (trip : String) : Option TrackingSession :=
  (hub.find? (fun p => p.1 == trip)).map (fun p => p.2)

/-- Dict write `_sessions[trip] = s` (keys are unique in a dict, so the
first binding is replaced, or a new one appended). -/
def hubSet (hub : Hub) (trip : String) (s : TrackingSession) : Hub :=
  match hub with
  | [] => [(trip, s)]
  | p :: rest => if p.1 = trip then (trip, s) :: rest else p :: hubSet rest trip s

/-- Embedding of `_get_or_create`: the stored session, or a freshly
created default one (also stored). -/
def getOrCreate (hub : Hub) (trip : String) (now : ℚ) :
    TrackingSession × Hub :=
  match hubLookup hub trip with
  | some s => (s, hub)
  | none =>
      let s := TrackingSession.init trip now
      (s, hubSet hub trip s)

/-- Embedding of the pydantic `LocationUpdate` model.  A field is
`none` when the parsed attribute is `None`; note that `heading` and
`speed` default to `0`, not `None`, when absent from the request body. -/
structure LocationUpdate where
  latitude : ℚ
  longitude : ℚ
  heading : Option ℚ
  speed : Option ℚ
  eta_minutes : Option ℚ
  status : Option String
  driver_name : Option String
  driver_phone : Option String
  vehicle_number : Option String
  vehicle_type : Option String
deriving DecidableEq, Repr

/-- Python truthiness of an optional float (falsy when `None` or 0). -/
def orKeep (u : Option ℚ) (old : ℚ) : ℚ :=
  match u with
  | some v => if v = 0 then old else v
  | none => old

/-- Python truthiness merge for optional strings (falsy when `None` or
empty). -/
def ifTruthy (u : Option String) (old : String) : String :=
  match u with
  | some v => if v = "" then old else v
  | none => old

/-- The field-merge portion of `push_location`, line by line:
latitude and longitude are always written; `heading` and `speed` use
`update.x or session.x`; `eta_minutes` is written when not `None`;
the string fields are written when truthy; the update time is
stamped. -/
def mergeUpdate (s : TrackingSession) (u : LocationUpdate) (now : ℚ) :
    TrackingSession :=
  { s with
    latitude := u.latitude
    longitude := u.longitude
    heading := orKeep u.heading s.heading
    speed := orKeep u.speed s.speed
    eta_minutes := match u.eta_minutes with
      | some e => e
      | none => s.eta_minutes
    status := ifTruthy u.status s.status
    driver_name := ifTruthy u.driver_name s.driver_name
    driver_phone := ifTruthy u.driver_phone s.driver_phone
    vehicle_number := ifTruthy u.vehicle_number s.vehicle_number
    vehicle_type := ifTruthy u.vehicle_type s.vehicle_type
    updated_at := now }

/-- One broadcast pass over the listener list, in order: a channel whose
send succeeds receives the snapshot, a channel whose send raises is
collected into the `dead` list. -/
def broadcastPass (sendOk : Nat → Bool) (snap : SessionSnapshot)
    (ls : List Nat) : List (Nat × SessionSnapshot) × List Nat :=
  match ls with
  | [] => ([], [])
  | w :: rest =>
      let r := broadcastPass sendOk snap rest
      if sendOk w then ((w, snap) :: r.1, r.2) else (r.1, w :: r.2)

/-- The `for ws in dead: session.listeners.remove(ws)` loop:
`list.remove` deletes the first occurrence. -/
def removeDead (ls : List Nat) (dead : List Nat) : List Nat :=
  dead.foldl (fun acc w => acc.erase w) ls

/-- Value returned by `push_location`, together with the delivery trace
of the broadcast pass. -/
structure PushResult where
  ok : Bool
  listeners : Nat
  sent : List (Nat × SessionSnapshot)
deriving DecidableEq, Repr

/-- Embedding of the `push_location` route handler. -/
def push_location (sendOk : Nat → Bool) (trip : String)
    (u : LocationUpdate) (now : ℚ) (hub : Hub) : PushResult × Hub :=
  let (s0, hub1) := getOrCreate hub trip now
  let s1 := mergeUpdate s0 u now
  let snap := s1.snapshot
  let (sent, dead) := broadcastPass sendOk snap s1.listeners
  let s2 := { s1 with listeners := removeDead s1.listeners dead }
  ({ ok := true, listeners := s2.listeners.length, sent := sent },
   hubSet hub1 trip s2)

/-- Embedding of the `get_location` route handler. -/
def get_location (hub : Hub) (trip : String) :
    Except HTTPException SessionSnapshot :=
  match hubLookup hub trip with
  | none => .error ⟨404, "No tracking data for this booking"⟩
  | some s => .ok s.snapshot

/-- Connection phase of the `tracking_ws` websocket handler: the session
is created through `_get_or_create` and the viewer channel is appended
to its listener list. -/
def wsSubscribe (hub : Hub) (trip : String) (w : Nat) (now : ℚ) : Hub :=
  let (s, hub1) := getOrCreate hub trip now
  hubSet hub1 trip { s with listeners := s.listeners ++ [w] }

/-- Disconnect phase of `tracking_ws` (the `finally` block): the channel
is removed from the listener list; the session itself stays in the
dict. -/
def wsDisconnect (hub : Hub) (trip : String) (w : Nat) : Hub :=
  match hubLookup hub trip with
  | none => hub
  | some s =>
      if w ∈ s.listeners then
        hubSet hub trip { s with listeners := s.listeners.erase w }
      else hub

/-- Embedding of the route concatenation of `simulate_tracking`:
`route_coords = segment1 + segment2[1:]`. -/
def concatLegs (segment1 segment2 : List (ℚ × ℚ)) : List (ℚ × ℚ) :=
  segment1 ++ segment2.drop 1

/-! Claim theorems. -/

/-- C9: for every two route legs where leg B starts at the last point of
leg A, the concatenation used by `simulate_tracking` drops the first
point of B, so the joined waypoint list has length
`len(A) + len(B) - 1` and contains the shared midpoint exactly once less
than the two legs together (no duplicated midpoint). -/
theorem C9_route_concat_no_dup (a b : List (ℚ × ℚ)) (m : ℚ × ℚ)
    (hb : b.head? = some m) (_ha : a.getLast? = some m) :
    (concatLegs a b).length = a.length + b.length - 1 ∧
    (concatLegs a b).count m + 1 = a.count m + b.count m := by
  cases b with
  | nil => cases hb
  | cons x t =>
      simp only [List.head?_cons, Option.some.injEq] at hb
      constructor
      · simp [concatLegs]
      · have hc : (x :: t).count m = t.count m + 1 := by
          simp [List.count_cons, hb]
        simp [concatLegs, List.count_append, hc]
        omega

/-- Witness for C9 on two concrete three-point legs sharing the point
(1, 1). -/
theorem C9_witness :
    ([((0 : ℚ), (0 : ℚ)), (2, 0), (1, 1)] : List (ℚ × ℚ)).getLast? = some (1, 1) ∧
    ([((1 : ℚ), (1 : ℚ)), (3, 1), (4, 4)] : List (ℚ × ℚ)).head? = some (1, 1) ∧
    (concatLegs [((0 : ℚ), (0 : ℚ)), (2, 0), (1, 1)] [(1, 1), (3, 1), (4, 4)]).length = 5 ∧
    (concatLegs [((0 : ℚ), (0 : ℚ)), (2, 0), (1, 1)] [(1, 1), (3, 1), (4, 4)]).count (1, 1) = 1 := by
  refine ⟨by decide, by decide, ?_, ?_⟩
  · exact (C9_route_concat_no_dup
      [((0 : ℚ), (0 : ℚ)), (2, 0), (1, 1)] [(1, 1), (3, 1), (4, 4)] (1, 1)
      (by decide) (by decide)).1
  · have h := (C9_route_concat_no_dup
      [((0 : ℚ), (0 : ℚ)), (2, 0), (1, 1)] [(1, 1), (3, 1), (4, 4)] (1, 1)
      (by decide) (by decide)).2
    revert h
    decide

/-- C4: `send_verification` is legal only from INITIATED, COUNTDOWN or
OTP_SENT, `verify` only from OTP_SENT, INITIATED or COUNTDOWN, and
`cancel` is illegal from COMPLETED and CANCELLED; every illegal attempt
returns the 400 conflict rejection naming the current state and returns
the database bit for bit unchanged. -/
theorem C4_illegal_transitions_rejected
    (db : Db) (sos_id phone : String) (sos : SosEvent)
    (otp_send otp_verify : OtpResult) (dist : ℚ → ℚ → ℚ → ℚ → ℚ)
    (reason : Option String) (now : Timestamp)
    (hget : getSos db sos_id = some sos) :
    (sos.status ∉ [SosStatus.INITIATED, SosStatus.COUNTDOWN, SosStatus.OTP_SENT] →
      send_verification otp_send sos_id now db =
        (.error ⟨400, sendOtpConflictDetail sos.status⟩, db)) ∧
    (sos.status ∉ [SosStatus.OTP_SENT, SosStatus.INITIATED, SosStatus.COUNTDOWN] →
      verify dist otp_verify sos_id phone now db =
        (.error ⟨400, verifyConflictDetail sos.status⟩, db)) ∧
    (sos.status ∈ [SosStatus.COMPLETED, SosStatus.CANCELLED] →
      cancel sos_id reason now db =
        (.error ⟨400, cancelConflictDetail sos.status⟩, db)) := by
  refine ⟨?_, ?_, ?_⟩
  · intro hst
    simp [send_verification, hget, hst]
  · intro hst
    simp [verify, hget, hst]
  · intro hst
    simp [cancel, hget, hst]

/-- Witness for C4 on a CANCELLED event: all three operations are
rejected with the conflict detail and the database is unchanged. -/
theorem C4_witness :
    ("cancelled" ∉ [SosStatus.INITIATED, SosStatus.COUNTDOWN, SosStatus.OTP_SENT]) ∧
    ("cancelled" ∈ [SosStatus.COMPLETED, SosStatus.CANCELLED]) ∧
    (send_verification ⟨true, "sent"⟩ "s1" "t1"
        ⟨[⟨"s1", "cancelled", none, none, none, none, some "p", none, none, "t0", "t0"⟩], []⟩ =
      (.error ⟨400, sendOtpConflictDetail "cancelled"⟩,
       ⟨[⟨"s1", "cancelled", none, none, none, none, some "p", none, none, "t0", "t0"⟩], []⟩)) ∧
    (verify (fun _ _ _ _ => 0) ⟨true, "ok"⟩ "s1" "phone" "t1"
        ⟨[⟨"s1", "cancelled", none, none, none, none, some "p", none, none, "t0", "t0"⟩], []⟩ =
      (.error ⟨400, verifyConflictDetail "cancelled"⟩,
       ⟨[⟨"s1", "cancelled", none, none, none, none, some "p", none, none, "t0", "t0"⟩], []⟩)) ∧
    (cancel "s1" (some "why") "t1"
        ⟨[⟨"s1", "cancelled", none, none, none, none, some "p", none, none, "t0", "t0"⟩], []⟩ =
      (.error ⟨400, cancelConflictDetail "cancelled"⟩,
       ⟨[⟨"s1", "cancelled", none, none, none, none, some "p", none, none, "t0", "t0"⟩], []⟩)) := by
  have h := C4_illegal_transitions_rejected
    ⟨[⟨"s1", "cancelled", none, none, none, none, some "p", none, none, "t0", "t0"⟩], []⟩
    "s1" "phone" ⟨"s1", "cancelled", none, none, none, none, some "p", none, none, "t0", "t0"⟩
    ⟨true, "sent"⟩ ⟨true, "ok"⟩ (fun _ _ _ _ => 0) (some "why") "t1" (by decide)
  exact ⟨by decide, by decide, h.1 (by decide), h.2.1 (by decide), h.2.2 (by decide)⟩

/-- C6: a `verify` call on an event in a legal state whose OTP check
fails is rejected with the collaborator message and the whole database
is returned unchanged: the status stays, the verified phone is not set
and the ambulance pool is untouched (no assignment attempted). -/
theorem C6_failed_otp_leaves_state
    (db : Db) (sos_id phone : String) (sos : SosEvent)
    (otp_verify : OtpResult) (dist : ℚ → ℚ → ℚ → ℚ → ℚ) (now : Timestamp)
    (hget : getSos db sos_id = some sos)
    (hlegal : sos.status ∈ [SosStatus.OTP_SENT, SosStatus.INITIATED, SosStatus.COUNTDOWN])
    (hfail : otp_verify.success = false) :
    verify dist otp_verify sos_id phone now db =
      (.error ⟨400, otp_verify.message⟩, db) := by
  simp [verify, hget, hlegal, hfail]

/-- Witness for C6 on an OTP_SENT event and a failing code check. -/
theorem C6_witness :
    verify (fun _ _ _ _ => 0) ⟨false, "Invalid OTP"⟩ "s1" "phone" "t1"
        ⟨[⟨"s1", "otp_sent", none, none, none, none, none, none, none, "t0", "t0"⟩],
         [⟨"a1", "available", some 1, some 1, "WB 1", "D", "P", none, "t0"⟩]⟩ =
      (.error ⟨400, "Invalid OTP"⟩,
       ⟨[⟨"s1", "otp_sent", none, none, none, none, none, none, none, "t0", "t0"⟩],
        [⟨"a1", "available", some 1, some 1, "WB 1", "D", "P", none, "t0"⟩]⟩) :=
  C6_failed_otp_leaves_state
    ⟨[⟨"s1", "otp_sent", none, none, none, none, none, none, none, "t0", "t0"⟩],
     [⟨"a1", "available", some 1, some 1, "WB 1", "D", "P", none, "t0"⟩]⟩
    "s1" "phone" ⟨"s1", "otp_sent", none, none, none, none, none, none, none, "t0", "t0"⟩
    ⟨false, "Invalid OTP"⟩ (fun _ _ _ _ => 0) "t1" (by decide) (by decide) (by decide)

/-- With no available candidate, `find_and_assign` returns `none` and
leaves the pool unchanged. -/
theorem find_and_assign_no_candidates (dist : ℚ → ℚ → ℚ → ℚ → ℚ)
    (latitude longitude : Option ℚ) (booking_id sos_id : Option String)
    (now : Timestamp) (pool : List Ambulance)
    (h : availableCandidates pool = []) :
    find_and_assign dist latitude longitude booking_id sos_id now pool =
      (none, pool) := by
  have hsel : faa_select dist latitude longitude pool = none := by
    unfold faa_select
    cases latitude with
    | none => cases longitude <;> simp [h]
    | some la => cases longitude <;> simp [h, rankCandidates]
  simp [find_and_assign, hsel]

/-- C5: `activate` with a (truthy) caller id attempts an ambulance
assignment, records its outcome (snapshot or null) on the returned
event, and the event has status DISPATCHED regardless of the outcome -
in particular with zero available ambulances it is DISPATCHED with a
null assignment; without a caller id the event is INITIATED and the
pool is untouched (no assignment attempted). -/
theorem C5_activate_dispatch (dist : ℚ → ℚ → ℚ → ℚ → ℚ)
    (latitude longitude : Option ℚ) (address : Option String)
    (user_id : Option String) (now : Timestamp) (newId : String) (db : Db) :
    (∀ u, user_id = some u → u ≠ "" →
      (activate dist latitude longitude address user_id now newId db).1.status =
        SosStatus.DISPATCHED ∧
      (activate dist latitude longitude address user_id now newId db).1.assigned_ambulance =
        (find_and_assign dist latitude longitude none (some newId) now db.ambulances).1 ∧
      (activate dist latitude longitude address user_id now newId db).2.ambulances =
        (find_and_assign dist latitude longitude none (some newId) now db.ambulances).2) ∧
    (user_id = none →
      (activate dist latitude longitude address user_id now newId db).1.status =
        SosStatus.INITIATED ∧
      (activate dist latitude longitude address user_id now newId db).1.assigned_ambulance =
        none ∧
      (activate dist latitude longitude address user_id now newId db).2.ambulances =
        db.ambulances) ∧
    (∀ u, user_id = some u → u ≠ "" → availableCandidates db.ambulances = [] →
      (activate dist latitude longitude address user_id now newId db).1.status =
        SosStatus.DISPATCHED ∧
      (activate dist latitude longitude address user_id now newId db).1.assigned_ambulance =
        none) := by
  refine ⟨?_, ?_, ?_⟩
  · intro u hu hne
    have htr : pyTruthyStr user_id = true := by
      simp [pyTruthyStr, hu, hne]
    cases hfa : find_and_assign dist latitude longitude none (some newId) now db.ambulances with
    | mk info pool =>
        cases info with
        | none => simp [activate, htr, hfa]
        | some i => simp [activate, htr, hfa]
  · intro hu
    have htr : pyTruthyStr user_id = false := by
      simp [pyTruthyStr, hu]
    simp [activate, htr]
  · intro u hu hne hempty
    have htr : pyTruthyStr user_id = true := by
      simp [pyTruthyStr, hu, hne]
    have hfa := find_and_assign_no_candidates dist latitude longitude none
      (some newId) now db.ambulances hempty
    simp [activate, htr, hfa]

/-- Witness for C5: an authenticated caller with an empty pool still
gets a DISPATCHED event with a null assignment, and an anonymous caller
gets an INITIATED event. -/
theorem C5_witness :
    ((activate (fun _ _ _ _ => 0) (some 1) (some 2) none (some "u1") "t0" "e1"
        ⟨[], []⟩).1.status = SosStatus.DISPATCHED ∧
     (activate (fun _ _ _ _ => 0) (some 1) (some 2) none (some "u1") "t0" "e1"
        ⟨[], []⟩).1.assigned_ambulance = none) ∧
    ((activate (fun _ _ _ _ => 0) (some 1) (some 2) none none "t0" "e2"
        ⟨[], []⟩).1.status = SosStatus.INITIATED ∧
     (activate (fun _ _ _ _ => 0) (some 1) (some 2) none none "t0" "e2"
        ⟨[], []⟩).1.assigned_ambulance = none ∧
     (activate (fun _ _ _ _ => 0) (some 1) (some 2) none none "t0" "e2"
        ⟨[], []⟩).2.ambulances = []) := by
  have h1 := (C5_activate_dispatch (fun _ _ _ _ => 0) (some 1) (some 2) none
    (some "u1") "t0" "e1" ⟨[], []⟩).2.2 "u1" rfl (by decide) (by decide)
  have h2 := (C5_activate_dispatch (fun _ _ _ _ => 0) (some 1) (some 2) none
    none "t0" "e2" ⟨[], []⟩).2.1 rfl
  exact ⟨h1, h2⟩

/-- After the release write, the first pool document with the released
id reads `available`. -/
theorem release_sets_available (aid : String) (now : Timestamp) :
    ∀ pool : List Ambulance, (∃ x ∈ pool, x.id = aid) →
      ((release aid now pool).find? (fun a => a.id == aid)).map
        (fun a => a.status) = some "available" := by
  intro pool hex
  have hsome : (pool.find? (fun a => a.id == aid)).isSome := by
    rw [List.find?_isSome]
    obtain ⟨x, hx, hxid⟩ := hex
    exact ⟨x, hx, by simp [hxid]⟩
  unfold release
  obtain ⟨y, hy⟩ := Option.isSome_iff_exists.mp hsome
  rw [hy]
  clear hy hsome
  induction pool with
  | nil => obtain ⟨x, hx, _⟩ := hex; cases hx
  | cons a t ih =>
      obtain ⟨x, hx, hxid⟩ := hex
      by_cases ha : a.id = aid
      · simp [ha]
      · rcases List.mem_cons.mp hx with rfl | hxt
        · exact absurd hxid ha
        · simp only [List.map_cons, if_neg ha]
          rw [List.find?_cons_of_neg _ (by simp [ha])]
          exact ih ⟨x, hxt, hxid⟩

/-- After the CANCELLED write, the first event document with the given
id reads CANCELLED. -/
theorem mark_sets_cancelled (sid : String) (reason : Option String)
    (now : Timestamp) :
    ∀ l : List SosEvent, (∃ x ∈ l, x.id = sid) →
      ((updateSosList l sid (fun s =>
          { s with status := SosStatus.CANCELLED, cancel_reason := reason,
                   updated_at := now })).find? (fun s => s.id == sid)).map
        (fun s => s.status) = some SosStatus.CANCELLED := by
  intro l hex
  induction l with
  | nil => obtain ⟨x, hx, _⟩ := hex; cases hx
  | cons a t ih =>
      obtain ⟨x, hx, hxid⟩ := hex
      by_cases ha : a.id = sid
      · simp [updateSosList, ha]
      · rcases List.mem_cons.mp hx with rfl | hxt
        · exact absurd hxid ha
        · simp only [updateSosList, List.map_cons, if_neg ha]
          rw [List.find?_cons_of_neg _ (by simp [ha])]
          exact ih ⟨x, hxt, hxid⟩

/-- The release step of `cancel` does not touch the `sos_events`
collection. -/
theorem cancelReleaseStep_sos_events (sos : SosEvent) (now : Timestamp)
    (db : Db) : (cancelReleaseStep sos now db).sos_events = db.sos_events := by
  unfold cancelReleaseStep
  cases sos.assigned_ambulance with
  | none => rfl
  | some amb => by_cases h : amb.ambulance_id ≠ "" <;> simp [h]

/-- C3: a `cancel` of a non-terminal SOS that carries an ambulance
snapshot with a (truthy) ambulance id known to the pool performs the
release write strictly before the CANCELLED write: along the execution
trace the ambulance is already `available` while the event still shows
its old status, every trace state showing CANCELLED shows the ambulance
`available`, and the final database shows both. -/
theorem C3_cancel_releases_before_mark
    (sos_id : String) (reason : Option String) (now : Timestamp) (db : Db)
    (sos : SosEvent) (amb : AssignedSnapshot)
    (hget : getSos db sos_id = some sos)
    (hterm : sos.status ∉ [SosStatus.COMPLETED, SosStatus.CANCELLED])
    (hamb : sos.assigned_ambulance = some amb)
    (hid : amb.ambulance_id ≠ "")
    (hex : ∃ x ∈ db.ambulances, x.id = amb.ambulance_id) :
    cancelTrace sos_id reason now db =
      [db, cancelReleaseStep sos now db,
       cancelMarkStep sos_id reason now (cancelReleaseStep sos now db)] ∧
    ambStatusOf (cancelReleaseStep sos now db) amb.ambulance_id =
      some "available" ∧
    sosStatusOf (cancelReleaseStep sos now db) sos_id = some sos.status ∧
    (∀ d ∈ cancelTrace sos_id reason now db,
      sosStatusOf d sos_id = some SosStatus.CANCELLED →
      ambStatusOf d amb.ambulance_id = some "available") ∧
    (cancel sos_id reason now db).2 =
      cancelMarkStep sos_id reason now (cancelReleaseStep sos now db) ∧
    sosStatusOf (cancel sos_id reason now db).2 sos_id =
      some SosStatus.CANCELLED ∧
    ambStatusOf (cancel sos_id reason now db).2 amb.ambulance_id =
      some "available" := by
  have htrace : cancelTrace sos_id reason now db =
      [db, cancelReleaseStep sos now db,
       cancelMarkStep sos_id reason now (cancelReleaseStep sos now db)] := by
    simp [cancelTrace, hget, hterm]
  have hrel : ambStatusOf (cancelReleaseStep sos now db) amb.ambulance_id =
      some "available" := by
    unfold ambStatusOf cancelReleaseStep
    rw [hamb]
    simp only [if_pos hid]
    exact release_sets_available amb.ambulance_id now db.ambulances hex
  have hrelsos : sosStatusOf (cancelReleaseStep sos now db) sos_id =
      some sos.status := by
    unfold sosStatusOf getSos
    rw [cancelReleaseStep_sos_events]
    unfold getSos at hget
    rw [hget]
    rfl
  have hsosmem : ∃ x ∈ db.sos_events, x.id = sos_id := by
    refine ⟨sos, List.mem_of_find?_eq_some hget, ?_⟩
    have := List.find?_some hget
    simpa using this
  have hmark : sosStatusOf
      (cancelMarkStep sos_id reason now (cancelReleaseStep sos now db))
      sos_id = some SosStatus.CANCELLED := by
    unfold sosStatusOf getSos cancelMarkStep
    simp only
    rw [cancelReleaseStep_sos_events]
    exact mark_sets_cancelled sos_id reason now db.sos_events hsosmem
  have hmarkamb : ambStatusOf
      (cancelMarkStep sos_id reason now (cancelReleaseStep sos now db))
      amb.ambulance_id = some "available" := by
    unfold ambStatusOf at hrel ⊢
    unfold cancelMarkStep
    simpa using hrel
  have hnotc : sos.status ≠ SosStatus.CANCELLED := by
    intro h
    exact hterm (by simp [h])
  have hcanc : (cancel sos_id reason now db).2 =
      cancelMarkStep sos_id reason now (cancelReleaseStep sos now db) := by
    unfold cancel
    rw [hget]
    simp only [if_neg hterm]
    cases getSos (cancelMarkStep sos_id reason now (cancelReleaseStep sos now db))
      sos_id <;> rfl
  refine ⟨htrace, hrel, hrelsos, ?_, hcanc, ?_, ?_⟩
  · intro d hd hc
    rw [htrace] at hd
    simp only [List.mem_cons, List.not_mem_nil, or_false] at hd
    rcases hd with rfl | rfl | rfl
    · exfalso
      apply hnotc
      unfold sosStatusOf at hc
      rw [hget] at hc
      simpa using hc
    · exfalso
      apply hnotc
      rw [hrelsos] at hc
      simpa using hc
    · exact hmarkamb
  · rw [hcanc]; exact hmark
  · rw [hcanc]; exact hmarkamb

/-- Witness for C3 on a one-event, one-ambulance database. -/
theorem C3_witness :
    sosStatusOf (cancel "s1" (some "r") "t1"
      ⟨[⟨"s1", "dispatched", none, none, none, some "u", none, none,
         some ⟨"a1", "WB 1", "D", "P", some 1, some 1⟩, "t0", "t0"⟩],
        [⟨"a1", "on_trip", some 1, some 1, "WB 1", "D", "P",
          some ⟨none, some "s1", "t0"⟩, "t0"⟩]⟩).2 "s1" =
      some SosStatus.CANCELLED ∧
    ambStatusOf (cancel "s1" (some "r") "t1"
      ⟨[⟨"s1", "dispatched", none, none, none, some "u", none, none,
         some ⟨"a1", "WB 1", "D", "P", some 1, some 1⟩, "t0", "t0"⟩],
        [⟨"a1", "on_trip", some 1, some 1, "WB 1", "D", "P",
          some ⟨none, some "s1", "t0"⟩, "t0"⟩]⟩).2 "a1" =
      some "available" := by
  have h := C3_cancel_releases_before_mark "s1" (some "r") "t1"
    ⟨[⟨"s1", "dispatched", none, none, none, some "u", none, none,
       some ⟨"a1", "WB 1", "D", "P", some 1, some 1⟩, "t0", "t0"⟩],
      [⟨"a1", "on_trip", some 1, some 1, "WB 1", "D", "P",
        some ⟨none, some "s1", "t0"⟩, "t0"⟩]⟩
    ⟨"s1", "dispatched", none, none, none, some "u", none, none,
      some ⟨"a1", "WB 1", "D", "P", some 1, some 1⟩, "t0", "t0"⟩
    ⟨"a1", "WB 1", "D", "P", some 1, some 1⟩
    (by decide) (by decide) (by decide) (by decide)
    ⟨⟨"a1", "on_trip", some 1, some 1, "WB 1", "D", "P",
      some ⟨none, some "s1", "t0"⟩, "t0"⟩, by decide, by decide⟩
  exact ⟨h.2.2.2.2.2.1, h.2.2.2.2.2.2⟩

/-- An ambulance without a full base location gets the sentinel key. -/
theorem distanceKey_sentinel (dist : ℚ → ℚ → ℚ → ℚ → ℚ) (la lo : ℚ)
    (a : Ambulance) (h : hasBase a = false) :
    distanceKey dist la lo a = 999999 := by
  cases hla : a.base_latitude with
  | none => cases hlo : a.base_longitude <;> simp [distanceKey, hla, hlo]
  | some bla =>
      cases hlo : a.base_longitude with
      | none => simp [distanceKey, hla, hlo]
      | some blo => simp [hasBase, hla, hlo] at h

/-- C1: with a caller location and a non-empty available pool,
`find_and_assign` selects the available candidate minimizing the
distance key (the abstracted haversine distance when the base is known,
the 999999 sentinel otherwise), breaking ties by pool iteration order,
and - whenever every known-base distance is below the sentinel, as every
haversine distance on Earth is - never selects an unknown-base candidate
while a known-base candidate exists. -/
theorem C1_nearest_available_selected
    (dist : ℚ → ℚ → ℚ → ℚ → ℚ) (la lo : ℚ) (pool : List Ambulance)
    (booking_id sos_id : Option String) (now : Timestamp)
    (hne : availableCandidates pool ≠ [])
    (hbound : ∀ a ∈ availableCandidates pool, hasBase a = true →
      distanceKey dist la lo a < 999999) :
    ∃ chosen,
      faa_select dist (some la) (some lo) pool = some chosen ∧
      find_and_assign dist (some la) (some lo) booking_id sos_id now pool =
        (some (mkSnapshot chosen), faa_write chosen.id booking_id sos_id now pool) ∧
      chosen ∈ availableCandidates pool ∧
      (∀ c ∈ availableCandidates pool,
        distanceKey dist la lo chosen ≤ distanceKey dist la lo c) ∧
      (∃ pre post, availableCandidates pool = pre ++ chosen :: post ∧
        ∀ e ∈ pre, distanceKey dist la lo chosen < distanceKey dist la lo e) ∧
      ((∃ c ∈ availableCandidates pool, hasBase c = true) →
        hasBase chosen = true) := by
  cases hms : (availableCandidates pool).mergeSort (keyLE (distanceKey dist la lo)) with
  | nil =>
      exfalso
      apply hne
      have := @List.length_mergeSort _
        (keyLE (distanceKey dist la lo)) (availableCandidates pool)
      rw [hms] at this
      exact List.eq_nil_of_length_eq_zero this.symm
  | cons h t =>
      have hh : ((availableCandidates pool).mergeSort
          (keyLE (distanceKey dist la lo))).head? = some h := by
        rw [hms]; rfl
      have hsel : faa_select dist (some la) (some lo) pool = some h := by
        simp only [faa_select, rankCandidates]
        exact hh
      have hmin := head_mergeSort_min (distanceKey dist la lo)
        (availableCandidates pool) h hh
      refine ⟨h, hsel, ?_, ?_, hmin, ?_, ?_⟩
      · simp [find_and_assign, hsel]
      · exact head_mergeSort_mem (distanceKey dist la lo)
          (availableCandidates pool) h hh
      · exact head_mergeSort_first (distanceKey dist la lo)
          (availableCandidates pool) h hh
      · rintro ⟨c, hc, hcb⟩
        by_contra hnb
        have hnb' : hasBase h = false := by
          cases hb : hasBase h with
          | true => exact absurd hb hnb
          | false => rfl
        have h1 : distanceKey dist la lo h ≤ distanceKey dist la lo c :=
          hmin c hc
        have h2 : distanceKey dist la lo c < 999999 := hbound c hc hcb
        rw [distanceKey_sentinel dist la lo h hnb'] at h1
        exact absurd (lt_of_le_of_lt h1 h2) (lt_irrefl _)

/-- Witness for C1: an unknown-base ambulance registered first, a known
ambulance at (1, 1) and one more at (5, 5), caller at the origin, with a
concrete bounded distance function. -/
theorem C1_witness :
    ∃ chosen,
      faa_select (fun _ _ bla blo => if decide (bla ≤ blo) then blo else bla)
        (some 0) (some 0)
        [⟨"A", "available", none, none, "WB A", "DA", "PA", none, "t0"⟩,
         ⟨"B", "available", some 1, some 1, "WB B", "DB", "PB", none, "t0"⟩,
         ⟨"C", "available", some 5, some 5, "WB C", "DC", "PC", none, "t0"⟩] =
        some chosen ∧
      find_and_assign (fun _ _ bla blo => if decide (bla ≤ blo) then blo else bla)
        (some 0) (some 0) none (some "s1") "t1"
        [⟨"A", "available", none, none, "WB A", "DA", "PA", none, "t0"⟩,
         ⟨"B", "available", some 1, some 1, "WB B", "DB", "PB", none, "t0"⟩,
         ⟨"C", "available", some 5, some 5, "WB C", "DC", "PC", none, "t0"⟩] =
        (some (mkSnapshot chosen),
         faa_write chosen.id none (some "s1") "t1"
          [⟨"A", "available", none, none, "WB A", "DA", "PA", none, "t0"⟩,
           ⟨"B", "available", some 1, some 1, "WB B", "DB", "PB", none, "t0"⟩,
           ⟨"C", "available", some 5, some 5, "WB C", "DC", "PC", none, "t0"⟩]) ∧
      chosen ∈ availableCandidates
        [⟨"A", "available", none, none, "WB A", "DA", "PA", none, "t0"⟩,
         ⟨"B", "available", some 1, some 1, "WB B", "DB", "PB", none, "t0"⟩,
         ⟨"C", "available", some 5, some 5, "WB C", "DC", "PC", none, "t0"⟩] ∧
      (∀ c ∈ availableCandidates
        [⟨"A", "available", none, none, "WB A", "DA", "PA", none, "t0"⟩,
         ⟨"B", "available", some 1, some 1, "WB B", "DB", "PB", none, "t0"⟩,
         ⟨"C", "available", some 5, some 5, "WB C", "DC", "PC", none, "t0"⟩],
        distanceKey (fun _ _ bla blo => if decide (bla ≤ blo) then blo else bla) 0 0 chosen ≤
          distanceKey (fun _ _ bla blo => if decide (bla ≤ blo) then blo else bla) 0 0 c) ∧
      (∃ pre post, availableCandidates
        [⟨"A", "available", none, none, "WB A", "DA", "PA", none, "t0"⟩,
         ⟨"B", "available", some 1, some 1, "WB B", "DB", "PB", none, "t0"⟩,
         ⟨"C", "available", some 5, some 5, "WB C", "DC", "PC", none, "t0"⟩] =
          pre ++ chosen :: post ∧
        ∀ e ∈ pre,
          distanceKey (fun _ _ bla blo => if decide (bla ≤ blo) then blo else bla) 0 0 chosen <
            distanceKey (fun _ _ bla blo => if decide (bla ≤ blo) then blo else bla) 0 0 e) ∧
      ((∃ c ∈ availableCandidates
        [⟨"A", "available", none, none, "WB A", "DA", "PA", none, "t0"⟩,
         ⟨"B", "available", some 1, some 1, "WB B", "DB", "PB", none, "t0"⟩,
         ⟨"C", "available", some 5, some 5, "WB C", "DC", "PC", none, "t0"⟩],
          hasBase c = true) → hasBase chosen = true) :=
  C1_nearest_available_selected
    (fun _ _ bla blo => if decide (bla ≤ blo) then blo else bla) 0 0
    [⟨"A", "available", none, none, "WB A", "DA", "PA", none, "t0"⟩,
     ⟨"B", "available", some 1, some 1, "WB B", "DB", "PB", none, "t0"⟩,
     ⟨"C", "available", some 5, some 5, "WB C", "DC", "PC", none, "t0"⟩]
    none (some "s1") "t1" (by decide) (by decide)

/-- C2 (demonstrating the code bug): the on-trip write of
`find_and_assign` is a plain unconditional document update.  With a one
ambulance pool, two interleaved dispatches both read the stale pool and
select the same ambulance; the first write puts it `on_trip`, and the
second write - issued although the ambulance is no longer `available`
at write time - still succeeds and silently overwrites the first
assignment instead of being conditioned, retried and failed with null
as the specification requires. -/
theorem C2_unconditional_write_overwrites :
    faa_select (fun _ _ _ _ => 0) none none
      [⟨"A", "available", some 1, some 1, "WB A", "D", "P", none, "t0"⟩] =
      some ⟨"A", "available", some 1, some 1, "WB A", "D", "P", none, "t0"⟩ ∧
    ((faa_write "A" none (some "s1") "t1"
        [⟨"A", "available", some 1, some 1, "WB A", "D", "P", none, "t0"⟩]).find?
      (fun a => a.id == "A")).map (fun a => a.status) = some "on_trip" ∧
    ((faa_write "A" none (some "s2") "t2"
        (faa_write "A" none (some "s1") "t1"
          [⟨"A", "available", some 1, some 1, "WB A", "D", "P", none, "t0"⟩])).find?
      (fun a => a.id == "A")).map (fun a => (a.status, a.current_assignment)) =
      some ("on_trip", some ⟨none, some "s2", "t2"⟩) := by
  refine ⟨?_, ?_, ?_⟩ <;> rfl

/-- Looking a trip up right after a dict write returns the written
session. -/
theorem hubLookup_hubSet (trip : String) (s : TrackingSession) :
    ∀ hub : Hub, hubLookup (hubSet hub trip s) trip = some s := by
  intro hub
  induction hub with
  | nil => simp [hubSet, hubLookup]
  | cons p rest ih =>
      by_cases hp : p.1 = trip
      · simp [hubSet, hubLookup, hp]
      · simp only [hubSet, if_neg hp]
        rw [hubLookup, List.find?_cons_of_neg _ (by simp [hp])]
        exact ih

/-- The channels that receive the snapshot during a broadcast pass are
exactly those whose send succeeds, in order. -/
theorem broadcastPass_sent (sendOk : Nat → Bool) (snap : SessionSnapshot) :
    ∀ ls : List Nat,
      (broadcastPass sendOk snap ls).1 =
        (ls.filter sendOk).map (fun w => (w, snap)) := by
  intro ls
  induction ls with
  | nil => rfl
  | cons w rest ih =>
      cases hw : sendOk w <;> simp [broadcastPass, hw, ih]

/-- The dead list collected by a broadcast pass is exactly the failing
channels, in order. -/
theorem broadcastPass_dead (sendOk : Nat → Bool) (snap : SessionSnapshot) :
    ∀ ls : List Nat,
      (broadcastPass sendOk snap ls).2 = ls.filter (fun w => !(sendOk w)) := by
  intro ls
  induction ls with
  | nil => rfl
  | cons w rest ih =>
      cases hw : sendOk w <;> simp [broadcastPass, hw, ih]

/-- Erasing elements different from the head leaves the head in
place. -/
theorem foldl_erase_cons (a : Nat) :
    ∀ (ds ls : List Nat), (∀ d ∈ ds, d ≠ a) →
      ds.foldl (fun acc w => acc.erase w) (a :: ls) =
        a :: ds.foldl (fun acc w => acc.erase w) ls := by
  intro ds
  induction ds with
  | nil => intro ls _; rfl
  | cons d rest ih =>
      intro ls hne
      have hda : d ≠ a := hne d (by simp)
      simp only [List.foldl_cons]
      rw [List.erase_cons_tail (by simp [Ne.symm hda])]
      exact ih (ls.erase d) (fun e he => hne e (by simp [he]))

/-- Removing the dead channels of a pass from a duplicate-free listener
list keeps exactly the channels whose send succeeded. -/
theorem removeDead_filter (sendOk : Nat → Bool) :
    ∀ ls : List Nat, ls.Nodup →
      removeDead ls (ls.filter (fun w => !(sendOk w))) = ls.filter sendOk := by
  intro ls
  induction ls with
  | nil => intro _; rfl
  | cons a t ih =>
      intro hnd
      have hat : a ∉ t := (List.nodup_cons.mp hnd).1
      have hndt : t.Nodup := (List.nodup_cons.mp hnd).2
      cases ha : sendOk a with
      | true =>
          have hfl : (a :: t).filter (fun w => !(sendOk w)) =
              t.filter (fun w => !(sendOk w)) := by
            simp [List.filter_cons, ha]
          rw [hfl]
          have hne : ∀ d ∈ t.filter (fun w => !(sendOk w)), d ≠ a := by
            intro d hd rfl_eq
            exact hat (by simpa [rfl_eq] using List.mem_of_mem_filter hd)
          unfold removeDead
          rw [foldl_erase_cons a _ t hne]
          have := ih hndt
          unfold removeDead at this
          rw [this]
          simp [List.filter_cons, ha]
      | false =>
          have hfl : (a :: t).filter (fun w => !(sendOk w)) =
              a :: t.filter (fun w => !(sendOk w)) := by
            simp [List.filter_cons, ha]
          rw [hfl]
          unfold removeDead
          simp only [List.foldl_cons, List.erase_cons_head]
          have := ih hndt
          unfold removeDead at this
          rw [this]
          simp [List.filter_cons, ha]

/-- C8: during a single broadcast pass of `push_location`, every
listener whose send succeeds receives the merged snapshot (a failure on
one channel never blocks the others), after the pass exactly the failed
channels are removed from the listener set, and the handler returns ok
to the pusher rather than an error. -/
theorem C8_broadcast_isolation (sendOk : Nat → Bool) (trip : String)
    (u : LocationUpdate) (now : ℚ) (hub : Hub) (s : TrackingSession)
    (hs : hubLookup hub trip = some s) (hnd : s.listeners.Nodup) :
    (push_location sendOk trip u now hub).1.sent =
      (s.listeners.filter sendOk).map
        (fun w => (w, (mergeUpdate s u now).snapshot)) ∧
    (∀ w ∈ s.listeners, sendOk w = true →
      (w, (mergeUpdate s u now).snapshot) ∈
        (push_location sendOk trip u now hub).1.sent) ∧
    (hubLookup (push_location sendOk trip u now hub).2 trip).map
      TrackingSession.listeners = some (s.listeners.filter sendOk) ∧
    (push_location sendOk trip u now hub).1.ok = true := by
  have hls : (mergeUpdate s u now).listeners = s.listeners := rfl
  have hsent : (push_location sendOk trip u now hub).1.sent =
      (s.listeners.filter sendOk).map
        (fun w => (w, (mergeUpdate s u now).snapshot)) := by
    simp only [push_location, getOrCreate, hs]
    rw [hls, broadcastPass_sent]
  have hhub : (hubLookup (push_location sendOk trip u now hub).2 trip).map
      TrackingSession.listeners = some (s.listeners.filter sendOk) := by
    simp only [push_location, getOrCreate, hs]
    rw [hubLookup_hubSet]
    simp only [Option.map_some']
    rw [hls, broadcastPass_dead, removeDead_filter sendOk s.listeners hnd]
  refine ⟨hsent, ?_, hhub, ?_⟩
  · intro w hw hok
    rw [hsent]
    exact List.mem_map.mpr ⟨w, List.mem_filter.mpr ⟨hw, hok⟩, rfl⟩
  · simp only [push_location, getOrCreate, hs]

/-- Witness for C8: three listeners, the send to channel 2 fails; 1 and
3 still receive the snapshot, only 2 is removed, and the call returns
ok. -/
theorem C8_witness :
    (push_location (fun w => !(w == 2)) "T"
        ⟨5, 6, none, none, none, none, none, none, none, none⟩ 7
        [("T", ⟨"T", 0, 0, 0, 0, 8, "dispatched", "", "", "", "ALS", 0,
          [1, 2, 3]⟩)]).1.sent =
      ([1, 3].map (fun w => (w,
        (mergeUpdate ⟨"T", 0, 0, 0, 0, 8, "dispatched", "", "", "", "ALS", 0,
          [1, 2, 3]⟩ ⟨5, 6, none, none, none, none, none, none, none, none⟩
          7).snapshot))) ∧
    (hubLookup (push_location (fun w => !(w == 2)) "T"
        ⟨5, 6, none, none, none, none, none, none, none, none⟩ 7
        [("T", ⟨"T", 0, 0, 0, 0, 8, "dispatched", "", "", "", "ALS", 0,
          [1, 2, 3]⟩)]).2 "T").map TrackingSession.listeners = some [1, 3] ∧
    (push_location (fun w => !(w == 2)) "T"
        ⟨5, 6, none, none, none, none, none, none, none, none⟩ 7
        [("T", ⟨"T", 0, 0, 0, 0, 8, "dispatched", "", "", "", "ALS", 0,
          [1, 2, 3]⟩)]).1.ok = true := by
  have h := C8_broadcast_isolation (fun w => !(w == 2)) "T"
    ⟨5, 6, none, none, none, none, none, none, none, none⟩ 7
    [("T", ⟨"T", 0, 0, 0, 0, 8, "dispatched", "", "", "", "ALS", 0,
      [1, 2, 3]⟩)]
    ⟨"T", 0, 0, 0, 0, 8, "dispatched", "", "", "", "ALS", 0, [1, 2, 3]⟩
    (by rfl) (by decide)
  exact ⟨h.1, h.2.2.1, h.2.2.2⟩

/-- C7 counterexample: a `push_location` update that carries
`heading = 0` (present!) does not overwrite the stored heading 90 -
Python truthiness treats the present zero like an absent field,
contradicting the claim that every present optional field overwrites. -/
theorem C7_counterexample :
    (hubLookup (push_location (fun _ => true) "T"
        ⟨5, 6, some 0, none, none, none, none, none, none, none⟩ 7
        [("T", ⟨"T", 1, 2, 90, 0, 8, "dispatched", "", "", "", "ALS", 0,
          []⟩)]).2 "T").map (fun s => s.heading) = some 90 ∧
    ¬ ((hubLookup (push_location (fun _ => true) "T"
        ⟨5, 6, some 0, none, none, none, none, none, none, none⟩ 7
        [("T", ⟨"T", 1, 2, 90, 0, 8, "dispatched", "", "", "", "ALS", 0,
          []⟩)]).2 "T").map (fun s => s.heading) = some 0) := by
  refine ⟨by rfl, ?_⟩
  intro h
  rw [show (hubLookup (push_location (fun _ => true) "T"
        ⟨5, 6, some 0, none, none, none, none, none, none, none⟩ 7
        [("T", ⟨"T", 1, 2, 90, 0, 8, "dispatched", "", "", "", "ALS", 0,
          []⟩)]).2 "T").map (fun s => s.heading) = some 90 from rfl] at h
  simp only [Option.some.injEq] at h
  exact absurd h (by norm_num)

/-- C7 (amended): `push_location` always overwrites latitude and
longitude, overwrites `eta_minutes` exactly when it is present,
overwrites `heading` and `speed` exactly when present and nonzero,
overwrites the status and driver/vehicle display fields exactly when
present and non-empty (present falsy values are treated like absent
ones), creates the session lazily when absent, and stamps the update
time. -/
theorem C7_push_location_merge (sendOk : Nat → Bool) (trip : String)
    (u : LocationUpdate) (now : ℚ) (hub : Hub) :
    ∃ s1, hubLookup (push_location sendOk trip u now hub).2 trip = some s1 ∧
      ∀ s0, (hubLookup hub trip).getD (TrackingSession.init trip now) = s0 →
        s1.latitude = u.latitude ∧
        s1.longitude = u.longitude ∧
        (∀ h, u.heading = some h → h ≠ 0 → s1.heading = h) ∧
        ((u.heading = none ∨ u.heading = some 0) → s1.heading = s0.heading) ∧
        (∀ v, u.speed = some v → v ≠ 0 → s1.speed = v) ∧
        ((u.speed = none ∨ u.speed = some 0) → s1.speed = s0.speed) ∧
        (∀ e, u.eta_minutes = some e → s1.eta_minutes = e) ∧
        (u.eta_minutes = none → s1.eta_minutes = s0.eta_minutes) ∧
        (∀ v, u.status = some v → v ≠ "" → s1.status = v) ∧
        ((u.status = none ∨ u.status = some "") → s1.status = s0.status) ∧
        (∀ v, u.driver_name = some v → v ≠ "" → s1.driver_name = v) ∧
        ((u.driver_name = none ∨ u.driver_name = some "") →
          s1.driver_name = s0.driver_name) ∧
        (∀ v, u.driver_phone = some v → v ≠ "" → s1.driver_phone = v) ∧
        ((u.driver_phone = none ∨ u.driver_phone = some "") →
          s1.driver_phone = s0.driver_phone) ∧
        (∀ v, u.vehicle_number = some v → v ≠ "" → s1.vehicle_number = v) ∧
        ((u.vehicle_number = none ∨ u.vehicle_number = some "") →
          s1.vehicle_number = s0.vehicle_number) ∧
        (∀ v, u.vehicle_type = some v → v ≠ "" → s1.vehicle_type = v) ∧
        ((u.vehicle_type = none ∨ u.vehicle_type = some "") →
          s1.vehicle_type = s0.vehicle_type) ∧
        s1.updated_at = now := by
  have hstore : ∃ ls, hubLookup (push_location sendOk trip u now hub).2 trip =
      some { mergeUpdate ((hubLookup hub trip).getD
        (TrackingSession.init trip now)) u now with listeners := ls } := by
    cases hcase : hubLookup hub trip with
    | none =>
        simp only [push_location, getOrCreate, hcase, Option.getD_none]
        exact ⟨_, hubLookup_hubSet trip _ _⟩
    | some s =>
        simp only [push_location, getOrCreate, hcase, Option.getD_some]
        exact ⟨_, hubLookup_hubSet trip _ _⟩
  obtain ⟨ls, hls⟩ := hstore
  refine ⟨_, hls, ?_⟩
  intro s0 hs0
  rw [← hs0]
  refine ⟨rfl, rfl, ?_, ?_, ?_, ?_, ?_, ?_, ?_, ?_, ?_, ?_, ?_, ?_, ?_,
    ?_, ?_, ?_, rfl⟩ <;>
    first
      | (intro v hv hne; simp [mergeUpdate, orKeep, ifTruthy, hv, hne])
      | (intro v hv; simp [mergeUpdate, orKeep, ifTruthy, hv])
      | (rintro (hv | hv) <;> simp [mergeUpdate, orKeep, ifTruthy, hv])
      | (intro hv; simp [mergeUpdate, hv])

/-- Witness for C7 (amended): the update carries a present zero heading
and a present empty driver name next to a fresh speed and status; the
zero and empty values are kept, the truthy ones overwrite. -/
theorem C7_witness :
    (hubLookup (push_location (fun _ => true) "T"
        ⟨5, 6, some 0, some 42, none, some "en_route", some "", none, none,
          none⟩ 7
        [("T", ⟨"T", 1, 2, 90, 3, 8, "dispatched", "Asha", "+91", "WB 1",
          "ALS", 0, []⟩)]).2 "T").map
      (fun s => (s.heading, s.speed, s.status, s.driver_name)) =
      some (90, 42, "en_route", "Asha") := by
  obtain ⟨s1, hs1, hf⟩ := C7_push_location_merge (fun _ => true) "T"
    ⟨5, 6, some 0, some 42, none, some "en_route", some "", none, none,
      none⟩ 7
    [("T", ⟨"T", 1, 2, 90, 3, 8, "dispatched", "Asha", "+91", "WB 1",
      "ALS", 0, []⟩)]
  obtain ⟨-, -, -, hkeep, hspeed, -, -, -, hstat, -, -, hname, -⟩ :=
    hf ⟨"T", 1, 2, 90, 3, 8, "dispatched", "Asha", "+91", "WB 1",
      "ALS", 0, []⟩ (by rfl)
  rw [hs1]
  simp only [Option.map_some']
  rw [hkeep (Or.inr rfl), hspeed 42 rfl (by norm_num),
    hstat "en_route" rfl (by decide), hname (Or.inr rfl)]

/-- C10 counterexample: after a subscribe-then-disconnect on a fresh
trip id the REST snapshot carries `vehicle_type = "ALS"`, not an empty
vehicle type as the claim describes the neutral default. -/
theorem C10_counterexample :
    Except.map (fun s => s.vehicle_type)
        (get_location (wsDisconnect (wsSubscribe ([] : Hub) "T" 7 3) "T" 7)
          "T") = .ok "ALS" ∧
    ("ALS" : String) ≠ "" := by
  exact ⟨rfl, by decide⟩

/-- C10 (amended): a fresh trip id yields NotFound on `get_location`,
but after any websocket subscribe - even one already disconnected - the
session exists eagerly, and `get_location` returns the neutral default
snapshot: position (0, 0), heading 0, speed 0, eta 8, status
`dispatched`, empty driver name/phone and vehicle number, and vehicle
type "ALS" (not empty); the NotFound distinction is gone for the
process lifetime. -/
theorem C10_subscribe_creates_session (hub : Hub) (trip : String) (w : Nat)
    (now : ℚ) (hfresh : hubLookup hub trip = none) :
    get_location hub trip =
      .error ⟨404, "No tracking data for this booking"⟩ ∧
    get_location (wsSubscribe hub trip w now) trip =
      .ok ⟨trip, 0, 0, 0, 0, 8, "dispatched", "", "", "", "ALS", now⟩ ∧
    get_location (wsDisconnect (wsSubscribe hub trip w now) trip w) trip =
      .ok ⟨trip, 0, 0, 0, 0, 8, "dispatched", "", "", "", "ALS", now⟩ := by
  have hsub : hubLookup (wsSubscribe hub trip w now) trip =
      some { TrackingSession.init trip now with listeners := [w] } := by
    simp only [wsSubscribe, getOrCreate, hfresh]
    have := hubLookup_hubSet trip
      { TrackingSession.init trip now with listeners := [w] }
      (hubSet hub trip (TrackingSession.init trip now))
    simpa [TrackingSession.init] using this
  refine ⟨by simp [get_location, hfresh], ?_, ?_⟩
  · simp [get_location, hsub, TrackingSession.snapshot, TrackingSession.init]
  · have hdis : hubLookup (wsDisconnect (wsSubscribe hub trip w now) trip w)
        trip = some { TrackingSession.init trip now with listeners := ([] : List Nat) } := by
      simp only [wsDisconnect, hsub]
      rw [if_pos (by simp)]
      have := hubLookup_hubSet trip
        { TrackingSession.init trip now with listeners := ([w] : List Nat).erase w }
        (wsSubscribe hub trip w now)
      simpa [TrackingSession.init] using this
    simp [get_location, hdis, TrackingSession.snapshot, TrackingSession.init]

/-- Witness for C10 (amended) on a concrete fresh hub. -/
theorem C10_witness :
    get_location ([] : Hub) "T" =
      .error ⟨404, "No tracking data for this booking"⟩ ∧
    get_location (wsSubscribe ([] : Hub) "T" 7 3) "T" =
      .ok ⟨"T", 0, 0, 0, 0, 8, "dispatched", "", "", "", "ALS", 3⟩ ∧
    get_location (wsDisconnect (wsSubscribe ([] : Hub) "T" 7 3) "T" 7) "T" =
      .ok ⟨"T", 0, 0, 0, 0, 8, "dispatched", "", "", "", "ALS", 3⟩ :=
  C10_subscribe_creates_session [] "T" 7 3 rfl

end Sevatra
